import Mathlib

/-!
Shallow embedding of `src/modules/sfp_alienvault.py` (SpiderFoot AlienVault
OTX enrichment module) and verification of its specification claims.

The module state (`opts`, `results`, `errorState`) is threaded explicitly;
the external transport (`sf.fetchUrl`), the IP-literal check (`sf.validIP`),
the wall clock (`time.time()`) and the cancellation poll (`checkForStop`)
are parameters in `Env`.  Python exceptions escaping `handleEvent` are
modelled by the `err` field of the output; machine integers are `Int`/`Nat`.
-/

namespace AlienVaultOTX

/-- Auxiliary for `splitChar`: split the remaining characters, carrying
the reversed current chunk. -/
def splitCharAux (sep : Char) : List Char → List Char → List String
  | [], acc => [⟨acc.reverse⟩]
  | c :: cs, acc =>
    if c = sep then ⟨acc.reverse⟩ :: splitCharAux sep cs []
    else splitCharAux sep cs (c :: acc)

/-- Python `s.split(sep)` (= `String.splitOn` for a one-character
separator), computed structurally over the character list. -/
def splitChar (sep : Char) (s : String) : List String :=
  splitCharAux sep s.data []

/-- Python `c in s` for a single character, as in `":" in qry`. -/
def strContains (s : String) (c : Char) : Bool :=
  s.data.contains c

/-- Python `s.startswith(p)`. -/
def strStarts (s p : String) : Bool :=
  p.data.isPrefixOf s.data

/-- Numeric value of a digit string (base 10, no sign). -/
def digitsVal (s : String) : Nat :=
  s.toList.foldl (fun a c => a * 10 + (c.toNat - 48)) 0

/-- A run of 1 to `maxLen` ASCII digits, as the `%Y` (4) and
`%m/%d/%H/%M/%S` (2) directives of `datetime.strptime` accept. -/
def numField (maxLen : Nat) (s : String) : Option Nat :=
  if 1 ≤ s.length ∧ s.length ≤ maxLen ∧ s.toList.all Char.isDigit then
    some (digitsVal s)
  else none

def isLeapYear (y : Nat) : Bool :=
  (y % 4 == 0 && y % 100 != 0) || y % 400 == 0

def monthLengths (y : Nat) : List Nat :=
  [31, if isLeapYear y then 29 else 28, 31, 30, 31, 30, 31, 31, 30, 31, 30, 31]

def daysInMonth (y m : Nat) : Nat := (monthLengths y).getD (m - 1) 0

def daysBeforeMonth (y m : Nat) : Nat := ((monthLengths y).take (m - 1)).sum

/-- Proleptic-Gregorian ordinal of a date, as `datetime.date.toordinal`. -/
def toOrdinal (y m d : Nat) : Nat :=
  365 * (y - 1) + (y - 1) / 4 - (y - 1) / 100 + (y - 1) / 400
    + daysBeforeMonth y m + d

/-- Epoch seconds of a wall-clock datetime; `time.mktime` is modelled at
UTC offset zero.  719163 is the ordinal of 1970-01-01. -/
def epochOf (y mo d h mi s : Nat) : Int :=
  ((toOrdinal y mo d : Int) - 719163) * 86400 + h * 3600 + mi * 60 + s

/-- Embedding of `int(time.mktime(datetime.strptime(s, fmt).timetuple()))`
for the format `"%Y-%m-%d" + sep + "%H:%M:%S"`:
`none` models the `ValueError` that `strptime` raises on malformed input
(the source never guards these calls). -/
def strptimeEpoch (sep : Char) (s : String) : Option Int :=
  match splitChar sep s with
  | [datePart, timePart] =>
    match splitChar '-' datePart, splitChar ':' timePart with
    | [ys, ms, ds], [hs, mis, ss] =>
      match numField 4 ys, numField 2 ms, numField 2 ds,
            numField 2 hs, numField 2 mis, numField 2 ss with
      | some y, some mo, some d, some h, some mi, some sec =>
        if 1 ≤ y ∧ y ≤ 9999 ∧ 1 ≤ mo ∧ mo ≤ 12 ∧ 1 ≤ d ∧ d ≤ daysInMonth y mo
            ∧ h ≤ 23 ∧ mi ≤ 59 ∧ sec ≤ 59 then
          some (epochOf y mo d h mi sec)
        else none
      | _, _, _, _, _, _ => none
    | _, _ => none
  | _ => none

/-- Passive-DNS timestamps: format `%Y-%m-%d %H:%M:%S` (source line 149). -/
def strptimePDns (s : String) : Option Int := strptimeEpoch ' ' s

/-- Activity timestamps: format `%Y-%m-%dT%H:%M:%S` (source line 188). -/
def strptimeActivity (s : String) : Option Int := strptimeEpoch 'T' s

/-- One entry of the `passive_dns` array of a response.  `hostname = none`
models the key being absent (`"hostname" in rec` fails); `last = none`
models `rec.get("last", "")` falling back to the empty string. -/
structure PDnsEntry where
  hostname : Option String
  last : Option String
deriving DecidableEq

/-- One entry of `reputation.activities`.  Both fields are read with
`.get(..., "")`, so absence falls back to the empty string. -/
structure Activity where
  name : Option String
  last_date : Option String
deriving DecidableEq

/-- The `reputation` object of a response.  `threat_score` is indexed
directly in the source (`rec['reputation']['threat_score']`), so a missing
key raises `KeyError`; `activities` is read with a `list()` default. -/
structure Reputation where
  threat_score : Option Int
  activities : Option (List Activity)
deriving DecidableEq

/-- A parsed JSON response body.  `has_passve_dns` models the membership
test `"passve_dns" in ret` at source line 143 (note the typo, distinct from
the `passive_dns` key read at line 145); `reputation = none` models the key
being absent or falsy, which `rec.get("reputation", None)` rejects. -/
structure OTXResponse where
  has_passve_dns : Bool
  passive_dns : Option (List PDnsEntry)
  reputation : Option Reputation
deriving DecidableEq

/-- Result of `self.sf.fetchUrl`: `content = none` is a `None` body;
`some none` is a body that fails `json.loads`; `some (some r)` parses. -/
structure FetchResult where
  code : String
  content : Option (Option OTXResponse)
deriving DecidableEq

/-- External collaborators: the transport keyed by request URL, the
`sf.validIP` check, the wall clock `int(time.time())`, and the
`checkForStop()` poll. -/
structure Env where
  fetch : String → FetchResult
  validIP : String → Bool
  now : Int
  stop : Bool

/-- Module state: the three options of `self.opts`, the dedup dict
`self.results` (a set of identifier strings) and the sticky `errorState`. -/
structure ModState where
  apikey : String
  age_limit_days : Nat
  threat_score_min : Int
  results : List String
  errorState : Bool
deriving DecidableEq

/-- The `watchedEvents` list (source lines 54-57). -/
def watchedEvents : List String :=
  ["IP_ADDRESS", "AFFILIATE_IPADDR", "INTERNET_NAME",
   "CO_HOSTED_SITE", "NETBLOCK_OWNER", "NETBLOCK_MEMBER",
   "AFFILIATE_INTERNET_NAME", "IPV6_ADDRESS"]

/-- The `producedEvents` list (source lines 60-64). -/
def producedEvents : List String :=
  ["MALICIOUS_IPADDR", "MALICIOUS_INTERNET_NAME",
   "MALICIOUS_COHOST", "MALICIOUS_AFFILIATE_INTERNET_NAME",
   "MALICIOUS_AFFILIATE_IPADDR", "MALICIOUS_NETBLOCK",
   "CO_HOSTED_SITE"]

/-- Target-type classification of `query` (source lines 68-74): default
`hostname`, a colon makes it `IPv6`, and `sf.validIP` overrides to `IPv4`. -/
def targettypeOf (env : Env) (qry : String) : String :=
  let t := "hostname"
  let t := if strContains qry ':' then "IPv6" else t
  if env.validIP qry then "IPv4" else t

/-- Query-kind coercion of `query` (source lines 76-77): anything other
than the two literal kinds falls back to `reputation`. -/
def querytypeOf (querytype : String) : String :=
  if querytype = "passive_dns" ∨ querytype = "reputation" then querytype
  else "reputation"

/-- The request URL built at source lines 79-80. -/
def queryUrl (env : Env) (qry querytype : String) : String :=
  "https://otx.alienvault.com:443/api/v1/indicators/" ++ targettypeOf env qry
    ++ "/" ++ qry ++ "/" ++ querytypeOf querytype

/-- The `query` method (source lines 66-103): issue the transport call and interpret
the result.  A `403` sets `errorState`; a `None` body or `404`, and a body
failing `json.loads`, yield `None` without touching state. -/
def query (env : Env) (st : ModState) (qry querytype : String) :
    Option OTXResponse × ModState :=
  let res := env.fetch (queryUrl env qry querytype)
  if res.code = "403" then (none, { st with errorState := true })
  else
    match res.content with
    | none => (none, st)
    | some body =>
      if res.code = "404" then (none, st)
      else
        match body with
        | none => (none, st)
        | some info => (some info, st)

/-- Decimal dotted-quad form of a 32-bit address value. -/
def ipv4String (n : Nat) : String :=
  toString (n / 16777216 % 256) ++ "." ++ toString (n / 65536 % 256) ++ "."
    ++ toString (n / 256 % 256) ++ "." ++ toString (n % 256)

def octetField (s : String) : Option Nat :=
  match numField 3 s with
  | some v => if v ≤ 255 then some v else none
  | none => none

/-- Modelled from the spec: §4.1 Identifier Expander.  The source delegates
netblock expansion to iteration over `netaddr.IPNetwork(eventData)`
(library code not under src/): the ordered sequence of every address in the
IPv4 CIDR block, network and broadcast included; malformed input raises
(`none`). -/
def ipNetworkExpand (s : String) : Option (List String) :=
  match splitChar '/' s with
  | [ip, plen] =>
    match splitChar '.' ip with
    | [a, b, c, d] =>
      match octetField a, octetField b, octetField c, octetField d,
            numField 2 plen with
      | some va, some vb, some vc, some vd, some p =>
        if p ≤ 32 then
          let base := ((va * 256 + vb) * 256 + vc) * 256 + vd
          let size := 2 ^ (32 - p)
          let network := base - base % size
          some ((List.range size).map (fun i => ipv4String (network + i)))
        else none
      | _, _, _, _, _ => none
    | _ => none
  | _ => none

/-- A Python exception escaping `handleEvent`. -/
inductive PyErr where
  /-- raised by `datetime.strptime` on a malformed or missing timestamp. -/
  | valueError
  /-- direct dict indexing on a missing key. -/
  | keyError
  /-- reading the local `evtType` when no branch assigned it. -/
  | nameError
  /-- raised by `netaddr.IPNetwork` on a malformed netblock. -/
  | addrFormatError
deriving DecidableEq

/-- An event given to `notifyListeners`:
`SpiderFootEvent(evtType, data, self.__name__, parent)` with the parent
back-reference omitted (provenance only). -/
structure SFEvent where
  eventType : String
  data : String
  module : String
deriving DecidableEq

/-- An incoming event as read at source lines 108-110. -/
structure InEvent where
  eventType : String
  module : String
  data : String
deriving DecidableEq

/-- Output of one `handleEvent` call: final state, events emitted (in
order), transport request URLs issued (in order), and the exception that
escaped, if any (mutations and emissions before it persist). -/
structure HEOut where
  st : ModState
  emitted : List SFEvent
  calls : List String
  err : Option PyErr
deriving DecidableEq

def prependCall (url : String) (out : HEOut) : HEOut :=
  { out with calls := url :: out.calls }

/-- The passive-DNS loop (source lines 146-158): for each entry carrying a
`hostname` key, parse `last` (a `ValueError` aborts the whole handler),
then emit a `CO_HOSTED_SITE` event unless the age limit is positive and the
entry is older than `now - 86400 * age_limit_days`. -/
def pdnsLoop (age_limit_days : Nat) (now : Int) :
    List PDnsEntry → List SFEvent × Option PyErr
  | [] => ([], none)
  | rec :: rest =>
    match rec.hostname with
    | none => pdnsLoop age_limit_days now rest
    | some host =>
      match strptimePDns (rec.last.getD "") with
      | none => ([], some .valueError)
      | some last_ts =>
        let age_limit_ts : Int := now - 86400 * age_limit_days
        if age_limit_days > 0 ∧ last_ts < age_limit_ts then
          pdnsLoop age_limit_days now rest
        else
          let (es, e) := pdnsLoop age_limit_days now rest
          (⟨"CO_HOSTED_SITE", host, "sfp_alienvault"⟩ :: es, e)

/-- The activity loop (source lines 184-195): each activity name is
appended to the description, then `last_date` is parsed (a `ValueError`
aborts); the age comparison in the source guards only the dead local
assignment `cats_description = ""`, so both branches continue with the
same accumulated description. -/
def buildDescr (age_limit_days : Nat) (now : Int) (descr : String) :
    List Activity → Except PyErr String
  | [] => .ok descr
  | result :: rest =>
    let descr := descr ++ "\n - " ++ result.name.getD ""
    match strptimeActivity (result.last_date.getD "") with
    | none => .error .valueError
    | some created_ts =>
      let age_limit_ts : Int := now - 86400 * age_limit_days
      if age_limit_days > 0 ∧ created_ts < age_limit_ts then
        buildDescr age_limit_days now descr rest
      else
        buildDescr age_limit_days now descr rest

/-- The `evtType` conditional chain (source lines 164-173); the argument is
the current value of the local variable, `none` when it was never
assigned. -/
def dispatchEvtType (eventName : String) (evtType : Option String) :
    Option String :=
  let evtType :=
    if eventName = "IP_ADDRESS" ∨ strStarts eventName "NETBLOCK_" then
      some "MALICIOUS_IPADDR" else evtType
  let evtType :=
    if eventName = "AFFILIATE_IPADDR" then
      some "MALICIOUS_AFFILIATE_IPADDR" else evtType
  let evtType :=
    if eventName = "INTERNET_NAME" then
      some "MALICIOUS_INTERNET_NAME" else evtType
  let evtType :=
    if eventName = "AFFILIATE_INTERNET_NAME" then
      some "MALICIOUS_AFFILIATE_INTERNET_NAME" else evtType
  if eventName = "CO_HOSTED_SITE" then some "MALICIOUS_COHOST" else evtType

/-- The reputation loop over `qrylist` (source lines 160-197): poll
`checkForStop`, update `evtType` through the conditional chain, issue the
reputation query, and when the record qualifies emit one event whose type
is the current `evtType` (a never-assigned `evtType` raises `NameError`). -/
def repLoop (env : Env) (eventName : String) (evtType : Option String)
    (st : ModState) : List String → HEOut
  | [] => ⟨st, [], [], none⟩
  | addr :: rest =>
    if env.stop then ⟨st, [], [], none⟩
    else
      let evtType := dispatchEvtType eventName evtType
      let url := queryUrl env addr "reputation"
      match query env st addr "reputation" with
      | (none, st1) => prependCall url (repLoop env eventName evtType st1 rest)
      | (some r, st1) =>
        match r.reputation with
        | none => prependCall url (repLoop env eventName evtType st1 rest)
        | some rep =>
          let rec_history := rep.activities.getD []
          match rep.threat_score with
          | none => ⟨st1, [], [url], some .keyError⟩
          | some score =>
            if score < st1.threat_score_min then
              prependCall url (repLoop env eventName evtType st1 rest)
            else
              match buildDescr st1.age_limit_days env.now
                  ("Threat Score: " ++ toString score ++ ":") rec_history with
              | .error e => ⟨st1, [], [url], some e⟩
              | .ok descr =>
                match evtType with
                | none => ⟨st1, [], [url], some .nameError⟩
                | some t =>
                  let out := repLoop env eventName evtType st1 rest
                  ⟨out.st, ⟨t, descr, "sfp_alienvault"⟩ :: out.emitted,
                    url :: out.calls, out.err⟩

/-- The `handleEvent` method (source lines 107-197). -/
def handleEvent (env : Env) (st : ModState) (event : InEvent) : HEOut :=
  let eventName := event.eventType
  let eventData := event.data
  if st.errorState then ⟨st, [], [], none⟩
  else if st.apikey = "" then ⟨{ st with errorState := true }, [], [], none⟩
  else if eventData ∈ st.results then ⟨st, [], [], none⟩
  else
    let st := { st with results := eventData :: st.results }
    if strStarts eventName "NETBLOCK_" then
      match ipNetworkExpand eventData with
      | none => ⟨st, [], [], some .addrFormatError⟩
      | some qrylist =>
        let st := { st with results := qrylist ++ st.results }
        repLoop env eventName none st qrylist
    else if eventName = "IP_ADDRESS" then
      -- source line 139 assigns evtType before the passive-DNS query;
      -- line 140 requests kind "passve_dns" (the typo is preserved here)
      let evtType := some "CO_HOSTED_SITE"
      let url := queryUrl env eventData "passve_dns"
      match query env st eventData "passve_dns" with
      | (ret, st) =>
        let pdnsPart : List SFEvent × Option PyErr :=
          match ret with
          | none => ([], none)
          | some r =>
            if r.has_passve_dns then
              match r.passive_dns with
              | none => ([], some .keyError)
              | some res => pdnsLoop st.age_limit_days env.now res
            else ([], none)
        match pdnsPart with
        | (es, some e) => ⟨st, es, [url], some e⟩
        | (es, none) =>
          let out := repLoop env eventName evtType st [eventData]
          ⟨out.st, es ++ out.emitted, url :: out.calls, out.err⟩
    else
      repLoop env eventName none st [eventData]

/-- User options handed to `setup`; `none` means the key is absent from
`userOpts`. -/
structure UserOpts where
  apikey : Option String
  age_limit_days : Option Nat
  threat_score_min : Option Int

/-- The `setup` method (source lines 43-51): recreate the `results` dict and merge the
user options over the current ones; `errorState` is not touched. -/
def setup (st : ModState) (u : UserOpts) : ModState :=
  { st with
    results := [],
    apikey := u.apikey.getD st.apikey,
    age_limit_days := u.age_limit_days.getD st.age_limit_days,
    threat_score_min := u.threat_score_min.getD st.threat_score_min }

/-! ## Concrete fixtures used by witnesses and counterexamples -/

/-- A transport that always answers 404 with a `None` body. -/
def fetch404 : String → FetchResult := fun _ => ⟨"404", none⟩

/-- Baseline module state: the option defaults of the source (age limit 30
days, minimum threat score 2) with an API key configured. -/
def st0 : ModState := ⟨"key", 30, 2, [], false⟩

/-- Clock used by the scenarios: 2026-10-10 00:00:00. -/
def nowTs : Int := epochOf 2026 10 10 0 0 0

/-- A response whose body carries a recent `passive_dns` entry but (like
every real service response) no key spelled `"passve_dns"`. -/
def c1Response : OTXResponse :=
  ⟨false, some [⟨some "cohost.example.com", some "2026-10-01 00:00:00"⟩], none⟩

def c1Env : Env :=
  ⟨fun _ => ⟨"200", some (some c1Response)⟩, fun _ => true, nowTs, false⟩

/-- A qualifying reputation record whose only activity is far older than
the age limit. -/
def c2Response : OTXResponse :=
  ⟨false, none,
   some ⟨some 5, some [⟨some "old-campaign", some "2000-01-01T00:00:00"⟩]⟩⟩

def c2Env : Env :=
  ⟨fun _ => ⟨"200", some (some c2Response)⟩, fun _ => true, nowTs, false⟩

/-- A qualifying reputation record whose first activity has no
`last_date`; a well-formed recent activity follows it. -/
def c3Response : OTXResponse :=
  ⟨false, none,
   some ⟨some 5, some [⟨some "undated", none⟩,
                       ⟨some "recent", some "2026-10-05T00:00:00"⟩]⟩⟩

def c3Env : Env :=
  ⟨fun _ => ⟨"200", some (some c3Response)⟩, fun _ => true, nowTs, false⟩

/-- A qualifying reputation record with an empty activity list. -/
def c4aResponse : OTXResponse := ⟨false, none, some ⟨some 5, some []⟩⟩

def c4aEnv : Env :=
  ⟨fun _ => ⟨"200", some (some c4aResponse)⟩, fun _ => true, nowTs, false⟩

/-- A response carrying the `"passve_dns"` key and a recent passive-DNS
entry whose hostname is the empty string. -/
def c4bResponse : OTXResponse :=
  ⟨true, some [⟨some "", some "2026-10-05 00:00:00"⟩], none⟩

def c4bEnv : Env :=
  ⟨fun _ => ⟨"200", some (some c4bResponse)⟩, fun _ => true, nowTs, false⟩

/-- A reputation record below the default threshold, with an activity. -/
def lowScoreResponse : OTXResponse :=
  ⟨false, none, some ⟨some 1, some [⟨some "act", some "2026-10-05T00:00:00"⟩]⟩⟩

def lowScoreEnv : Env :=
  ⟨fun _ => ⟨"200", some (some lowScoreResponse)⟩, fun _ => true, nowTs, false⟩

/-- A transport whose credential is always rejected. -/
def env403 : Env := ⟨fun _ => ⟨"403", none⟩, fun _ => true, 0, false⟩

/-- A transport that finds nothing, with `sf.validIP` accepting inputs. -/
def env404 : Env := ⟨fetch404, fun _ => true, 0, false⟩

/-- A qualifying reputation record with no activities, used for the
IPV6_ADDRESS scenario. -/
def c6Env : Env := c4aEnv

/-! ## Helper lemmas -/

/-- The five event types the `evtType` conditional chain can assign. -/
def maliciousList : List String :=
  ["MALICIOUS_IPADDR", "MALICIOUS_AFFILIATE_IPADDR",
   "MALICIOUS_INTERNET_NAME", "MALICIOUS_AFFILIATE_INTERNET_NAME",
   "MALICIOUS_COHOST"]

theorem dispatch_assigns (n : String) (o : Option String) (t : String)
    (h : dispatchEvtType n o = some t) :
    t ∈ maliciousList ∨ o = some t := by
  unfold dispatchEvtType at h
  split_ifs at h <;> simp_all [maliciousList]

theorem ite_cons_snd {α β : Type} (c : Prop) [Decidable c]
    (p : List α × β) (x : α) :
    (if c then p else (x :: p.1, p.2)).2 = p.2 := by
  split <;> rfl

theorem data_append_ne_left (a b : String) (ha : a.data ≠ []) :
    (a ++ b).data ≠ [] := by
  intro hc
  rw [String.data_append] at hc
  exact ha (List.append_eq_nil.mp hc).1

theorem buildDescr_now_irrel (limit : Nat) (n1 n2 : Int) (descr : String)
    (acts : List Activity) :
    buildDescr limit n1 descr acts = buildDescr limit n2 descr acts := by
  induction acts generalizing descr with
  | nil => rfl
  | cons a rest ih =>
    simp only [buildDescr, ite_self]
    cases strptimeActivity (a.last_date.getD "") with
    | none => rfl
    | some ts => exact ih _

theorem buildDescr_ok_ne_empty (limit : Nat) (now : Int) (d2 : String)
    (acts : List Activity) :
    ∀ descr : String, descr.data ≠ [] →
      buildDescr limit now descr acts = .ok d2 → d2.data ≠ [] := by
  induction acts with
  | nil =>
    intro descr hne h
    simp only [buildDescr] at h
    injection h with h2
    rw [← h2]; exact hne
  | cons a rest ih =>
    intro descr hne h
    simp only [buildDescr, ite_self] at h
    cases hp : strptimeActivity (a.last_date.getD "") with
    | none => simp only [hp] at h; exact Except.noConfusion h
    | some ts =>
      simp only [hp] at h
      exact ih _ (data_append_ne_left _ _ (data_append_ne_left _ _ hne)) h

theorem pdnsLoop_emitted (limit : Nat) (now : Int) (recs : List PDnsEntry)
    (e : SFEvent) (h : e ∈ (pdnsLoop limit now recs).1) :
    e.eventType = "CO_HOSTED_SITE" := by
  induction recs with
  | nil => cases h
  | cons r rest ih =>
    simp only [pdnsLoop] at h
    cases hh : r.hostname with
    | none => simp only [hh] at h; exact ih h
    | some host =>
      simp only [hh] at h
      cases hp : strptimePDns (r.last.getD "") with
      | none => simp only [hp] at h; simp at h
      | some ts =>
        simp only [hp] at h
        split at h
        · exact ih h
        · simp only [List.mem_cons] at h
          rcases h with h | h
          · rw [h]
          · exact ih h

theorem repLoop_emitted (env : Env) (n : String) (addrs : List String)
    (o : Option String) (st : ModState) (e : SFEvent)
    (h : e ∈ (repLoop env n o st addrs).emitted) :
    (e.eventType ∈ maliciousList ∨ o = some e.eventType)
      ∧ e.data.data ≠ [] := by
  induction addrs generalizing o st with
  | nil => cases h
  | cons addr rest ih =>
    have step : ∀ st2 : ModState,
        e ∈ (repLoop env n (dispatchEvtType n o) st2 rest).emitted →
        (e.eventType ∈ maliciousList ∨ o = some e.eventType)
          ∧ e.data.data ≠ [] := by
      intro st2 hm
      rcases ih _ _ hm with ⟨ht, hd⟩
      refine ⟨?_, hd⟩
      rcases ht with ht | ht
      · exact Or.inl ht
      · exact dispatch_assigns n o e.eventType ht
    simp only [repLoop] at h
    split at h
    · simp at h
    · rcases hq : query env st addr "reputation" with ⟨ret, st1⟩
      simp only [hq] at h
      cases ret with
      | none => exact step st1 (by simpa [prependCall] using h)
      | some r =>
        cases hrep : r.reputation with
        | none =>
          simp only [hrep] at h
          exact step st1 (by simpa [prependCall] using h)
        | some rep =>
          simp only [hrep] at h
          cases hsc : rep.threat_score with
          | none => simp only [hsc] at h; simp at h
          | some score =>
            simp only [hsc] at h
            split at h
            · exact step st1 (by simpa [prependCall] using h)
            · cases hb : buildDescr st1.age_limit_days env.now
                  ("Threat Score: " ++ toString score ++ ":")
                  (rep.activities.getD []) with
              | error pe => simp only [hb] at h; simp at h
              | ok descr =>
                simp only [hb] at h
                cases hev : dispatchEvtType n o with
                | none => simp only [hev] at h; simp at h
                | some t =>
                  simp only [hev] at h
                  simp only [List.mem_cons] at h
                  rcases h with h | h
                  · subst h
                    refine ⟨dispatch_assigns n o t hev, ?_⟩
                    refine buildDescr_ok_ne_empty _ _ _ _ _ ?_ hb
                    exact data_append_ne_left _ _
                      (data_append_ne_left _ _ (by decide))
                  · rw [← hev] at h
                    exact step st1 h

/-! ## Claims -/

/-- C1: the claim says a plain-address (IP_ADDRESS) event performs a
passive-DNS lookup and emits one CO_HOSTED_SITE finding per fresh hostname
before the reputation finding.  The code misspells the lookup kind as
`"passve_dns"`, which `query` coerces to `reputation`, and guards the
extraction on the misspelled key, so on a response carrying a recent
`passive_dns` entry (and, like every real response, no `"passve_dns"` key)
nothing is emitted and both transport calls use the reputation kind;
indeed the URL built for kind `"passve_dns"` is the reputation URL. -/
theorem c1_code_bug :
    (handleEvent c1Env st0 ⟨"IP_ADDRESS", "m", "203.0.113.5"⟩).emitted = []
    ∧ (handleEvent c1Env st0 ⟨"IP_ADDRESS", "m", "203.0.113.5"⟩).calls =
        ["https://otx.alienvault.com:443/api/v1/indicators/IPv4/203.0.113.5/reputation",
         "https://otx.alienvault.com:443/api/v1/indicators/IPv4/203.0.113.5/reputation"]
    ∧ ∀ env qry, queryUrl env qry "passve_dns" = queryUrl env qry "reputation" := by
  refine ⟨by decide, by decide, fun env qry => rfl⟩

/-- C2: the claim says an activity name appears in the composite
description only if its age passes the age-limit rule.  In the code the
name is appended before the age check, and the check guards only a dead
assignment: with age limit 30 and an activity dated 2000-01-01 (far older
than the limit, third conjunct) the name still appears in the emitted
description; in general the description `buildDescr` computes is
independent of the clock, hence of the age filter. -/
theorem c2_code_bug :
    (handleEvent c2Env st0 ⟨"AFFILIATE_IPADDR", "m", "198.51.100.9"⟩).emitted =
      [⟨"MALICIOUS_AFFILIATE_IPADDR", "Threat Score: 5:\n - old-campaign",
        "sfp_alienvault"⟩]
    ∧ epochOf 2000 1 1 0 0 0 < c2Env.now - 86400 * 30
    ∧ ∀ limit n1 n2 descr acts,
        buildDescr limit n1 descr acts = buildDescr limit n2 descr acts := by
  refine ⟨by decide, by decide, fun limit n1 n2 descr acts =>
    buildDescr_now_irrel limit n1 n2 descr acts⟩

/-- C3 counterexample: an activity whose `last_date` is missing does not
get discarded with processing continuing; instead `handleEvent` raises
(`strptime` ValueError) and even the well-formed recent activity that
follows produces no finding. -/
theorem c3_counterexample :
    (handleEvent c3Env st0 ⟨"INTERNET_NAME", "m", "bad.example.com"⟩).err =
      some .valueError
    ∧ (handleEvent c3Env st0 ⟨"INTERNET_NAME", "m", "bad.example.com"⟩).emitted
        = [] := by
  exact ⟨by decide, by decide⟩

/-- C3 amended: a passive-DNS or activity entry whose timestamp is missing
or malformed makes the enclosing loop abort with a ValueError that escapes
`handleEvent`, instead of being discarded with processing continuing. -/
theorem c3_amended :
    (∀ limit now descr acts,
        (∃ a ∈ acts, strptimeActivity (a.last_date.getD "") = none) →
        buildDescr limit now descr acts = .error .valueError)
    ∧ (∀ limit now recs,
        (∃ r ∈ recs, r.hostname.isSome = true
            ∧ strptimePDns (r.last.getD "") = none) →
        (pdnsLoop limit now recs).2 = some .valueError) := by
  constructor
  · intro limit now descr acts hex
    induction acts generalizing descr with
    | nil => rcases hex with ⟨a, ha, _⟩; cases ha
    | cons b rest ih =>
      simp only [buildDescr, ite_self]
      cases hp : strptimeActivity (b.last_date.getD "") with
      | none => rfl
      | some ts =>
        rcases hex with ⟨a, ha, hpa⟩
        rcases List.mem_cons.mp ha with rfl | ha
        · rw [hp] at hpa; cases hpa
        · exact ih _ ⟨a, ha, hpa⟩
  · intro limit now recs hex
    induction recs with
    | nil => rcases hex with ⟨r, hr, _⟩; cases hr
    | cons b rest ih =>
      simp only [pdnsLoop]
      cases hh : b.hostname with
      | none =>
        rcases hex with ⟨r, hr, hsome, hpr⟩
        rcases List.mem_cons.mp hr with rfl | hr
        · rw [hh] at hsome; cases hsome
        · exact ih ⟨r, hr, hsome, hpr⟩
      | some host =>
        cases hp : strptimePDns (b.last.getD "") with
        | none => rfl
        | some ts =>
          rcases hex with ⟨r, hr, hsome, hpr⟩
          rcases List.mem_cons.mp hr with rfl | hr
          · rw [hp] at hpr; cases hpr
          · have htail := ih ⟨r, hr, hsome, hpr⟩
            rw [ite_cons_snd]
            exact htail

/-- Witness for C3 amended: both parts at a singleton list whose entry has
a missing timestamp. -/
theorem c3_amended_witness :
    buildDescr 30 0 "d" [⟨some "x", none⟩] = .error .valueError
    ∧ (pdnsLoop 30 0 [⟨some "h", none⟩]).2 = some .valueError := by
  exact ⟨c3_amended.1 30 0 "d" [⟨some "x", none⟩]
          ⟨⟨some "x", none⟩, by decide, by decide⟩,
        c3_amended.2 30 0 [⟨some "h", none⟩]
          ⟨⟨some "h", none⟩, by decide, by decide, by decide⟩⟩

/-- C4 counterexample: (a) a qualifying reputation record with an empty
activity list — an empty age-filtered record set — still produces a
finding; (b) a passive-DNS response carrying an empty hostname produces a
finding whose description is empty. -/
theorem c4_counterexample :
    (handleEvent c4aEnv st0 ⟨"INTERNET_NAME", "m", "empty.example.com"⟩).emitted
      = [⟨"MALICIOUS_INTERNET_NAME", "Threat Score: 5:", "sfp_alienvault"⟩]
    ∧ (handleEvent c4bEnv st0 ⟨"IP_ADDRESS", "m", "198.51.100.7"⟩).emitted
      = [⟨"CO_HOSTED_SITE", "", "sfp_alienvault"⟩] := by
  exact ⟨by decide, by decide⟩

/-- C4 amended: every emitted finding carries a category drawn from the
fixed output enumeration, and every finding other than a co-hosted-site
one carries a non-empty description (a co-hosted-site finding carries the
response hostname verbatim, which may be empty); no finding is emitted for
an identifier whose threat score is below the threshold (second conjunct:
the head target of the loop contributes no finding when its score is below
the minimum); but a reputation finding is emitted even when the
age-filtered record set is empty, as the counterexample shows. -/
theorem c4_amended :
    (∀ env st ev, ∀ e ∈ (handleEvent env st ev).emitted,
        e.eventType ∈ producedEvents
        ∧ (e.eventType ≠ "CO_HOSTED_SITE" → e.data ≠ ""))
    ∧ (∀ env st n o addr rest r rep s,
        env.stop = false →
        env.fetch (queryUrl env addr "reputation") = ⟨"200", some (some r)⟩ →
        r.reputation = some rep → rep.threat_score = some s →
        s < st.threat_score_min →
        (repLoop env n o st (addr :: rest)).emitted =
          (repLoop env n (dispatchEvtType n o) st rest).emitted) := by
  constructor
  · intro env st ev e he
    have mal_sub : ∀ t, t ∈ maliciousList → t ∈ producedEvents := by decide
    have data_ne : ∀ s : String, s.data ≠ [] → s ≠ "" := by
      intro s hs hc
      rw [hc] at hs
      exact hs rfl
    have from_rep : ∀ (o : Option String) (st2 : ModState) (addrs : List String)
        (n : String),
        (o = none ∨ o = some "CO_HOSTED_SITE") →
        e ∈ (repLoop env n o st2 addrs).emitted →
        e.eventType ∈ producedEvents
          ∧ (e.eventType ≠ "CO_HOSTED_SITE" → e.data ≠ "") := by
      intro o st2 addrs n ho hm
      rcases repLoop_emitted env n addrs o st2 e hm with ⟨ht, hd⟩
      refine ⟨?_, fun _ => data_ne _ hd⟩
      rcases ht with ht | ht
      · exact mal_sub _ ht
      · rcases ho with rfl | rfl
        · cases ht
        · have : e.eventType = "CO_HOSTED_SITE" := by
            injection ht with h2
            exact h2.symm
          rw [this]; decide
    simp only [handleEvent] at he
    split at he
    · simp at he
    · split at he
      · simp at he
      · split at he
        · simp at he
        · split at he
          · -- NETBLOCK branch
            cases hx : ipNetworkExpand ev.data with
            | none => simp only [hx] at he; simp at he
            | some qrylist =>
              simp only [hx] at he
              exact from_rep none _ qrylist ev.eventType (Or.inl rfl) he
          · split at he
            · -- IP_ADDRESS branch
              rcases hq : query env
                  { st with results := ev.data :: st.results }
                  ev.data "passve_dns" with ⟨ret, st2⟩
              simp only [hq] at he
              cases ret with
              | none =>
                simp only [List.mem_append] at he
                rcases he with he | he
                · simp at he
                · exact from_rep (some "CO_HOSTED_SITE") _ [ev.data]
                    ev.eventType (Or.inr rfl) he
              | some r =>
                by_cases hk : r.has_passve_dns = true
                · simp only [hk] at he
                  cases hpd : r.passive_dns with
                  | none => simp only [hpd] at he; simp at he
                  | some res =>
                    simp only [hpd] at he
                    rcases hploop : pdnsLoop st2.age_limit_days env.now res
                        with ⟨es, pe⟩
                    simp only [hploop] at he
                    have hes : ∀ e2 ∈ es,
                        e2.eventType = "CO_HOSTED_SITE" := by
                      intro e2 he2
                      have := pdnsLoop_emitted st2.age_limit_days env.now
                        res e2
                      rw [hploop] at this
                      exact this he2
                    cases pe with
                    | none =>
                      have he2 : e ∈ es ++ (repLoop env ev.eventType
                          (some "CO_HOSTED_SITE") st2 [ev.data]).emitted := he
                      rcases List.mem_append.mp he2 with he3 | he3
                      · have := hes e he3
                        rw [this]
                        refine ⟨by decide, fun hne => absurd rfl hne⟩
                      · exact from_rep (some "CO_HOSTED_SITE") _ [ev.data]
                          ev.eventType (Or.inr rfl) he3
                    | some perr =>
                      have he2 : e ∈ es := he
                      have := hes e he2
                      rw [this]
                      refine ⟨by decide, fun hne => absurd rfl hne⟩
                · simp only [Bool.not_eq_true] at hk
                  simp only [hk] at he
                  have he2 : e ∈ (repLoop env ev.eventType
                      (some "CO_HOSTED_SITE") st2 [ev.data]).emitted := he
                  exact from_rep (some "CO_HOSTED_SITE") _ [ev.data]
                    ev.eventType (Or.inr rfl) he2
            · exact from_rep none _ [ev.data] ev.eventType (Or.inl rfl) he
  · intro env st n o addr rest r rep s hstop hf hrep hsc hlt
    have hq : query env st addr "reputation" = (some r, st) := by
      simp [query, hf]
    simp [repLoop, hstop, hq, hrep, hsc, hlt, prependCall]

/-- Witness for C4 amended: the first part at the finding of the
empty-activity scenario, the second at a below-threshold record. -/
theorem c4_amended_witness :
    ((⟨"MALICIOUS_INTERNET_NAME", "Threat Score: 5:", "sfp_alienvault"⟩ :
        SFEvent).eventType ∈ producedEvents
      ∧ ((⟨"MALICIOUS_INTERNET_NAME", "Threat Score: 5:", "sfp_alienvault"⟩ :
            SFEvent).eventType ≠ "CO_HOSTED_SITE" →
          (⟨"MALICIOUS_INTERNET_NAME", "Threat Score: 5:", "sfp_alienvault"⟩ :
            SFEvent).data ≠ ""))
    ∧ (repLoop lowScoreEnv "INTERNET_NAME" none st0 ["low.example.com"]).emitted
        = (repLoop lowScoreEnv "INTERNET_NAME"
            (dispatchEvtType "INTERNET_NAME" none) st0 []).emitted := by
  exact ⟨c4_amended.1 c4aEnv st0 ⟨"INTERNET_NAME", "m", "empty.example.com"⟩
          ⟨"MALICIOUS_INTERNET_NAME", "Threat Score: 5:", "sfp_alienvault"⟩
          (by decide),
        c4_amended.2 lowScoreEnv st0 "INTERNET_NAME" none "low.example.com" []
          lowScoreResponse ⟨some 1, some [⟨some "act", some "2026-10-05T00:00:00"⟩]⟩
          1 rfl rfl rfl rfl (by decide)⟩

/-- C5 counterexample: with a transport that always answers 403, handling
one netblock event with two member addresses issues two transport calls —
the 403 on the first target does not stop the remaining query targets of
the same event, contradicting the claim. -/
theorem c5_counterexample :
    (handleEvent env403 st0 ⟨"NETBLOCK_OWNER", "m", "10.0.0.4/31"⟩).calls =
      ["https://otx.alienvault.com:443/api/v1/indicators/IPv4/10.0.0.4/reputation",
       "https://otx.alienvault.com:443/api/v1/indicators/IPv4/10.0.0.5/reputation"]
    ∧ (handleEvent env403 st0
        ⟨"NETBLOCK_OWNER", "m", "10.0.0.4/31"⟩).st.errorState = true := by
  exact ⟨by decide, by decide⟩

/-- C5 amended: a 403 response sets `errorState` and `query` returns no
record; any event arriving while `errorState` is set is dropped with zero
transport calls and no state change (so the flag also remains set); but
the remaining query targets of the event being handled still issue
transport calls, as the two-member netblock under an always-403 transport
shows. -/
theorem c5_amended :
    (∀ env st qry qt, (env.fetch (queryUrl env qry qt)).code = "403" →
        query env st qry qt = (none, { st with errorState := true }))
    ∧ (∀ env st ev, st.errorState = true →
        handleEvent env st ev = ⟨st, [], [], none⟩)
    ∧ (handleEvent env403 st0
        ⟨"NETBLOCK_OWNER", "m", "10.0.0.4/31"⟩).calls.length = 2 := by
  refine ⟨?_, ?_, by decide⟩
  · intro env st qry qt h
    simp [query, h]
  · intro env st ev h
    simp [handleEvent, h]

/-- Witness for C5 amended: a 403 transport at a concrete state and two
concrete events. -/
theorem c5_amended_witness :
    query env403 st0 "203.0.113.9" "reputation" =
      (none, { st0 with errorState := true })
    ∧ handleEvent env403 { st0 with errorState := true }
        ⟨"IP_ADDRESS", "m", "203.0.113.9"⟩ =
      ⟨{ st0 with errorState := true }, [], [], none⟩ := by
  exact ⟨c5_amended.1 env403 st0 "203.0.113.9" "reputation" (by decide),
        c5_amended.2.1 env403 { st0 with errorState := true }
          ⟨"IP_ADDRESS", "m", "203.0.113.9"⟩ (by decide)⟩

/-- C6: for every watched event type other than IPV6_ADDRESS the
conditional chain assigns an output category, but for IPV6_ADDRESS (which
the module watches) no branch assigns it, and on a qualifying reputation
record `handleEvent` fails with a NameError — reading the never-assigned
`evtType` — instead of emitting a categorized finding. -/
theorem c6_theorem :
    (∀ n ∈ watchedEvents, n ≠ "IPV6_ADDRESS" →
        (dispatchEvtType n none).isSome = true)
    ∧ dispatchEvtType "IPV6_ADDRESS" none = none
    ∧ (∀ env st m d r rep s,
        st.errorState = false → ¬ st.apikey = "" → ¬ d ∈ st.results →
        env.stop = false →
        env.fetch (queryUrl env d "reputation") = ⟨"200", some (some r)⟩ →
        r.reputation = some rep → rep.threat_score = some s →
        ¬ s < st.threat_score_min → rep.activities = some [] →
        (handleEvent env st ⟨"IPV6_ADDRESS", m, d⟩).err = some .nameError
        ∧ (handleEvent env st ⟨"IPV6_ADDRESS", m, d⟩).emitted = []) := by
  refine ⟨by decide, rfl, ?_⟩
  intro env st m d r rep s hes hak hres hstop hf hrep hsc hge hact
  have hq : query env ⟨st.apikey, st.age_limit_days, st.threat_score_min,
      d :: st.results, false⟩ d "reputation" =
      (some r, ⟨st.apikey, st.age_limit_days, st.threat_score_min,
        d :: st.results, false⟩) := by
    simp [query, hf]
  have hnb : strStarts "IPV6_ADDRESS" "NETBLOCK_" = false := by decide
  have hmain : handleEvent env st ⟨"IPV6_ADDRESS", m, d⟩ =
      ⟨⟨st.apikey, st.age_limit_days, st.threat_score_min,
          d :: st.results, false⟩, [],
        [queryUrl env d "reputation"], some .nameError⟩ := by
    simp [handleEvent, repLoop, buildDescr, dispatchEvtType, hes, hak, hres,
      hnb, hstop, hq, hrep, hsc, hge, hact]
  rw [hmain]
  exact ⟨rfl, rfl⟩

/-- Witness for C6: the IPV6_ADDRESS scenario at a concrete environment
with a qualifying record. -/
theorem c6_theorem_witness :
    (handleEvent c6Env st0 ⟨"IPV6_ADDRESS", "m", "2001:db8::1"⟩).err =
      some .nameError
    ∧ (handleEvent c6Env st0 ⟨"IPV6_ADDRESS", "m", "2001:db8::1"⟩).emitted
      = [] := by
  exact c6_theorem.2.2 c6Env st0 "m" "2001:db8::1" c4aResponse
    ⟨some 5, some []⟩ 5 rfl (by decide) (by decide) rfl rfl rfl rfl
    (by decide) rfl

/-- C7: a reputation record whose threat score is strictly below the
configured minimum produces no finding for that identifier — even if the
record contains activities — and no exception either. -/
theorem c7_theorem :
    ∀ env st n m d r rep s,
      ¬ n = "IP_ADDRESS" → strStarts n "NETBLOCK_" = false →
      st.errorState = false → ¬ st.apikey = "" → ¬ d ∈ st.results →
      env.stop = false →
      env.fetch (queryUrl env d "reputation") = ⟨"200", some (some r)⟩ →
      r.reputation = some rep → rep.threat_score = some s →
      s < st.threat_score_min →
      (handleEvent env st ⟨n, m, d⟩).emitted = []
      ∧ (handleEvent env st ⟨n, m, d⟩).err = none := by
  intro env st n m d r rep s hnip hnb hes hak hres hstop hf hrep hsc hlt
  have hq : query env ⟨st.apikey, st.age_limit_days, st.threat_score_min,
      d :: st.results, false⟩ d "reputation" =
      (some r, ⟨st.apikey, st.age_limit_days, st.threat_score_min,
        d :: st.results, false⟩) := by
    simp [query, hf]
  have hmain : handleEvent env st ⟨n, m, d⟩ =
      ⟨⟨st.apikey, st.age_limit_days, st.threat_score_min,
          d :: st.results, false⟩, [],
        [queryUrl env d "reputation"], none⟩ := by
    simp [handleEvent, repLoop, prependCall, hes, hak, hres, hnb, hnip,
      hstop, hq, hrep, hsc, hlt]
  rw [hmain]
  exact ⟨rfl, rfl⟩

/-- Witness for C7: a below-threshold record at a concrete environment. -/
theorem c7_theorem_witness :
    (handleEvent lowScoreEnv st0
        ⟨"INTERNET_NAME", "m", "low.example.com"⟩).emitted = []
    ∧ (handleEvent lowScoreEnv st0
        ⟨"INTERNET_NAME", "m", "low.example.com"⟩).err = none := by
  exact c7_theorem lowScoreEnv st0 "INTERNET_NAME" "m" "low.example.com"
    lowScoreResponse ⟨some 1, some [⟨some "act", some "2026-10-05T00:00:00"⟩]⟩
    1 (by decide) (by decide) rfl (by decide) (by decide) rfl rfl rfl rfl
    (by decide)

/-- C8 counterexample: an address queried once as a plain affiliate event
is queried again when a netblock containing it is expanded later in the
same run — the expansion records members without consulting the cache —
so "queried at most once per run" fails (the 10.0.0.5 reputation URL
appears in both events' transport calls). -/
theorem c8_counterexample :
    (handleEvent env404 st0 ⟨"AFFILIATE_IPADDR", "m", "10.0.0.5"⟩).calls =
      ["https://otx.alienvault.com:443/api/v1/indicators/IPv4/10.0.0.5/reputation"]
    ∧ (handleEvent env404
        (handleEvent env404 st0 ⟨"AFFILIATE_IPADDR", "m", "10.0.0.5"⟩).st
        ⟨"NETBLOCK_OWNER", "m", "10.0.0.4/31"⟩).calls =
      ["https://otx.alienvault.com:443/api/v1/indicators/IPv4/10.0.0.4/reputation",
       "https://otx.alienvault.com:443/api/v1/indicators/IPv4/10.0.0.5/reputation"] := by
  exact ⟨by decide, by decide⟩

/-- C8 amended: an identifier already present in the dedup cache is
dropped with zero transport calls on re-submission, and when a netblock
event is expanded every member address is recorded in the cache before any
reputation query for that event is issued (the handler equals the
reputation loop started from a state whose cache already holds every
member); but an identifier may be reputation-queried more than once per
run, since netblock expansion records and queries members without checking
whether they were already queried. -/
theorem c8_amended :
    (∀ env st ev, st.errorState = false → ¬ st.apikey = "" →
        ev.data ∈ st.results → handleEvent env st ev = ⟨st, [], [], none⟩)
    ∧ (∀ env st ev addrs, st.errorState = false → ¬ st.apikey = "" →
        ¬ ev.data ∈ st.results → strStarts ev.eventType "NETBLOCK_" = true →
        ipNetworkExpand ev.data = some addrs →
        (∀ a ∈ addrs,
            a ∈ ({ st with results := addrs ++ ev.data :: st.results } :
                ModState).results)
        ∧ handleEvent env st ev =
            repLoop env ev.eventType none
              { st with results := addrs ++ ev.data :: st.results } addrs) := by
  constructor
  · intro env st ev hes hak hmem
    simp only [handleEvent, hes, hak]
    rw [if_pos hmem]
    simp
  · intro env st ev addrs hes hak hmem hnb hx
    constructor
    · intro a ha
      simp only [List.mem_append]
      exact Or.inl ha
    · simp [handleEvent, hes, hak, hmem, hnb, hx]

/-- Witness for C8 amended: a cached identifier is dropped, and a concrete
netblock handler equals its marked-before-query reputation loop. -/
theorem c8_amended_witness :
    handleEvent env404 { st0 with results := ["10.0.0.5"] }
        ⟨"AFFILIATE_IPADDR", "m", "10.0.0.5"⟩ =
      ⟨{ st0 with results := ["10.0.0.5"] }, [], [], none⟩
    ∧ ((∀ a ∈ ["10.0.0.4", "10.0.0.5"],
          a ∈ ({ st0 with results := ["10.0.0.4", "10.0.0.5"]
                  ++ "10.0.0.4/31" :: st0.results } : ModState).results)
        ∧ handleEvent env404 st0 ⟨"NETBLOCK_OWNER", "m", "10.0.0.4/31"⟩ =
            repLoop env404 "NETBLOCK_OWNER" none
              { st0 with results := ["10.0.0.4", "10.0.0.5"]
                  ++ "10.0.0.4/31" :: st0.results }
              ["10.0.0.4", "10.0.0.5"]) := by
  exact ⟨c8_amended.1 env404 { st0 with results := ["10.0.0.5"] }
          ⟨"AFFILIATE_IPADDR", "m", "10.0.0.5"⟩ rfl (by decide) (by decide),
        c8_amended.2 env404 st0 ⟨"NETBLOCK_OWNER", "m", "10.0.0.4/31"⟩
          ["10.0.0.4", "10.0.0.5"] rfl (by decide) (by decide) (by decide)
          (by decide)⟩

/-- C9: with an empty credential, the first incoming event is dropped with
no transport call and no finding while `errorState` becomes set, and any
later event is likewise dropped with zero transport calls. -/
theorem c9_theorem :
    ∀ env st ev ev2, st.errorState = false → st.apikey = "" →
      handleEvent env st ev = ⟨{ st with errorState := true }, [], [], none⟩
      ∧ handleEvent env { st with errorState := true } ev2 =
          ⟨{ st with errorState := true }, [], [], none⟩ := by
  intro env st ev ev2 hes hak
  constructor
  · simp [handleEvent, hes, hak]
  · simp [handleEvent]

/-- Witness for C9: an empty-credential state and two concrete events. -/
theorem c9_theorem_witness :
    handleEvent env404 ⟨"", 30, 2, [], false⟩ ⟨"IP_ADDRESS", "m", "1.2.3.4"⟩ =
      ⟨{ (⟨"", 30, 2, [], false⟩ : ModState) with errorState := true },
        [], [], none⟩
    ∧ handleEvent env404
        { (⟨"", 30, 2, [], false⟩ : ModState) with errorState := true }
        ⟨"INTERNET_NAME", "m", "x.example.com"⟩ =
      ⟨{ (⟨"", 30, 2, [], false⟩ : ModState) with errorState := true },
        [], [], none⟩ := by
  exact c9_theorem env404 ⟨"", 30, 2, [], false⟩ ⟨"IP_ADDRESS", "m", "1.2.3.4"⟩
    ⟨"INTERNET_NAME", "m", "x.example.com"⟩ rfl rfl

/-- C10: `setup` recreates the dedup cache and merges options but does not
reset `errorState`, so a flag set in an earlier run persists across a
`setup()` call and every event of the following run is silently dropped. -/
theorem c10_theorem :
    (∀ st u, (setup st u).errorState = st.errorState)
    ∧ (∀ st u, (setup st u).results = [])
    ∧ (∀ env st u ev, st.errorState = true →
        handleEvent env (setup st u) ev = ⟨setup st u, [], [], none⟩) := by
  refine ⟨fun st u => rfl, fun st u => rfl, ?_⟩
  intro env st u ev h
  have hset : (setup st u).errorState = true := by
    rw [show (setup st u).errorState = st.errorState from rfl, h]
  simp [handleEvent, hset]

/-- Witness for C10: a state with the flag set, re-`setup` with a fresh
key, and a concrete event that is still dropped. -/
theorem c10_theorem_witness :
    handleEvent env404 (setup ⟨"key", 30, 2, ["a"], true⟩
        ⟨some "key2", none, none⟩) ⟨"IP_ADDRESS", "m", "1.2.3.4"⟩ =
      ⟨setup ⟨"key", 30, 2, ["a"], true⟩ ⟨some "key2", none, none⟩,
        [], [], none⟩ := by
  exact c10_theorem.2.2 env404 ⟨"key", 30, 2, ["a"], true⟩
    ⟨some "key2", none, none⟩ ⟨"IP_ADDRESS", "m", "1.2.3.4"⟩ rfl

end AlienVaultOTX
